import Mathlib

/-!
Verification of the request-security layer of the cimoy-parent-api repository.

Each section embeds one source module as executable Lean definitions:

* `Token`     — the JWT issue/verify/rotate functions of `src/security/crypto.js`
  (lines 538-762 of the combined file).
* `Aead`      — the `KeyManager` AES-256-GCM encrypt/decrypt and the
  `encryptValue`/`decryptValue` wrappers of `src/security/crypto.js`.
* `TwoFactor` — the TOTP secret and backup-code manager of
  `src/security/two-factor.js`.
* `Csrf`      — the double-submit verification of `src/security/csrf.js`.
* `Waf`       — the request inspector of the WAF module.

Randomness (key material, IVs, generated codes) is supplied as explicit
parameters.  Cryptographic primitives are modelled ideally: the stream
cipher is an explicit xor keystream, the GCM authentication tag is an
injective encoding of (key, iv, aad, ciphertext) — a perfect MAC — and
SHA-256 digests are injective tagging functions.  File I/O and logging
are not modelled; only the state they carry is.
-/

/-- Decidable equality for `Except`, used to evaluate verification results
on concrete inputs. -/
instance {ε α : Type} [DecidableEq ε] [DecidableEq α] : DecidableEq (Except ε α) := by
  intro a b
  cases a <;> cases b
  case error.error x y =>
    exact if h : x = y then isTrue (by rw [h]) else isFalse (by intro hc; cases hc; exact h rfl)
  case ok.ok x y =>
    exact if h : x = y then isTrue (by rw [h]) else isFalse (by intro hc; cases hc; exact h rfl)
  case error.ok x y => exact isFalse (by intro hc; cases hc)
  case ok.error x y => exact isFalse (by intro hc; cases hc)

namespace Token

/-- Runtime configuration, from `src/config/environment`: `config.isLocal`
and `config.JWT_SECRET` (absent or empty is falsy in JS). -/
structure Config where
  isLocal : Bool
  jwtSecret : Option String
deriving DecidableEq, Repr

/-- Rendering of a possibly-undefined JS string inside a template literal:
`undefined` prints as the string "undefined". -/
def optStr : Option String → String
  | none => "undefined"
  | some s => s

/-- JS truthiness of a possibly-absent string claim: absent and the empty
string are both falsy. -/
def optTruthy : Option String → Bool
  | none => false
  | some s => !s.isEmpty

/-- SHA-256 hex digest, modelled as an injective tagging function. -/
def sha256Hex (s : String) : String := "sha256:" ++ s

/-- `generateDeviceFingerprint(deviceId, userId)`:
sha256 of `deviceId:userId:(config.JWT_SECRET || 'fallback-secret')`. -/
def generateDeviceFingerprint (cfg : Config) (deviceId userId : Option String) : String :=
  sha256Hex (optStr deviceId ++ ":" ++ optStr userId ++ ":" ++
    (match cfg.jwtSecret with
     | some s => if s = "" then "fallback-secret" else s
     | none => "fallback-secret"))

/-- The claims object carried in a JWT.  `extra` stands for the remaining
application claims, untouched by the security layer. -/
structure JwtPayload where
  userId : Option String
  deviceId : Option String
  fingerprint : Option String
  iss : Option String
  aud : Option String
  iat : Option Nat
  extra : List (String × String)
deriving DecidableEq, Repr

/-- A signed JWT: the embedded payload, the `exp` claim (seconds), and the
identifier of the key pair whose private half produced the signature.
`jwt.verify` succeeds exactly for the key pair that signed. -/
structure SignedToken where
  payload : JwtPayload
  exp : Nat
  signedWith : Nat
deriving DecidableEq, Repr

/-- The module-level mutable key state: the currently loaded key pair and
`lastKeyRotation` (milliseconds). -/
structure KeyState where
  currentKeyId : Nat
  lastKeyRotation : Nat
deriving DecidableEq, Repr

/-- `KEY_ROTATION_INTERVAL = 24 * 60 * 60 * 1000` milliseconds. -/
def KEY_ROTATION_INTERVAL : Nat := 24 * 60 * 60 * 1000

/-- `rotateKeysIfNeeded()`: outside local mode, once the interval has
elapsed a fresh key pair replaces the loaded one and `lastKeyRotation`
advances.  `freshKeyId` is the identity of the newly generated pair. -/
def rotateKeysIfNeeded (cfg : Config) (st : KeyState) (now : Nat) (freshKeyId : Nat) :
    KeyState :=
  if cfg.isLocal = false ∧ KEY_ROTATION_INTERVAL < now - st.lastKeyRotation then
    { currentKeyId := freshKeyId, lastKeyRotation := now }
  else st

/-- `generateToken(payload, expiresIn, useFingerprint)`: embeds the device
fingerprint when requested and a deviceId is present, adds `iss`/`aud`/`iat`
outside local mode, calls `rotateKeysIfNeeded`, and signs with the key pair
loaded after that call.  `now` is in ms; `expiresInSec` in seconds. -/
def generateToken (cfg : Config) (st : KeyState) (payload : JwtPayload)
    (expiresInSec : Nat) (useFingerprint : Bool) (now : Nat) (freshKeyId : Nat) :
    SignedToken × KeyState :=
  let fp := generateDeviceFingerprint cfg payload.deviceId payload.userId
  let p1 :=
    if useFingerprint = true ∧ optTruthy payload.deviceId = true then
      { payload with fingerprint := some fp }
    else payload
  let p2 :=
    if cfg.isLocal = false then
      { p1 with iss := some "tracas-api", aud := some "tracas-app", iat := some (now / 1000) }
    else p1
  let st1 := rotateKeysIfNeeded cfg st now freshKeyId
  ({ payload := p2, exp := now / 1000 + expiresInSec, signedWith := st1.currentKeyId }, st1)

/-- The distinct error kinds `verifyToken` can throw. -/
inductive VerifyError where
  | invalidSignature
  | expired
  | badAudience
  | badIssuer
  | invalidFingerprint
deriving DecidableEq, Repr

/-- `verifyToken(token)`: `jwt.verify` against the currently loaded key
(signature, `exp`, and `aud`/`iss` outside local mode); then, when both a
fingerprint and a deviceId are (truthily) embedded, the fingerprint is
recomputed and compared, a mismatch being a distinct error.  Tokens with
either field falsy (`!decoded.fingerprint || !decoded.deviceId`, so absent
or empty) are returned as decoded. -/
def verifyToken (cfg : Config) (st : KeyState) (tok : SignedToken) (nowSec : Nat) :
    Except VerifyError JwtPayload :=
  if tok.signedWith ≠ st.currentKeyId then .error .invalidSignature
  else if tok.exp ≤ nowSec then .error .expired
  else if cfg.isLocal = false ∧ tok.payload.aud ≠ some "tracas-app" then
    .error .badAudience
  else if cfg.isLocal = false ∧ tok.payload.iss ≠ some "tracas-api" then
    .error .badIssuer
  else if optTruthy tok.payload.fingerprint = false ∨
      optTruthy tok.payload.deviceId = false then
    .ok tok.payload
  else if tok.payload.fingerprint ≠
      some (generateDeviceFingerprint cfg tok.payload.deviceId tok.payload.userId) then
    .error .invalidFingerprint
  else .ok tok.payload

/-- A production configuration used in concrete evaluations. -/
def cfgProd : Config := { isLocal := false, jwtSecret := some "s3cr3t" }

/-- A local configuration used in concrete evaluations. -/
def cfgLocal : Config := { isLocal := true, jwtSecret := some "s3cr3t" }

/-- Example application claims. -/
def claimsEx : JwtPayload :=
  { userId := some "u7", deviceId := some "dev-1", fingerprint := none,
    iss := none, aud := none, iat := none, extra := [("role", "parent")] }

/-- A refresh-lifetime token issued at t = 1000 ms under key 0 (fresh id 99
is not used: the rotation interval has not elapsed). -/
def tokBeforeRotation : SignedToken :=
  (generateToken cfgProd { currentKeyId := 0, lastKeyRotation := 0 } claimsEx
    (7 * 24 * 3600) true 1000 99).1

/-- The key state right after the rotation that fires at t = 86400002 ms,
loading fresh key pair 1. -/
def stAfterRotation : KeyState :=
  rotateKeysIfNeeded cfgProd { currentKeyId := 0, lastKeyRotation := 0 } 86400002 1

end Token

open Token in
/-- C1, counterexample.  A token signed under the key material active at
issuance is rejected with a generic invalid-signature error immediately
after the next rotation, even though its `exp` is far in the future: there
is no overlap window in which the immediately-prior key is still accepted.
Checked one second into the supposed window (nowSec = 86401). -/
theorem C1_counterexample :
    verifyToken cfgProd stAfterRotation tokBeforeRotation 86401 =
      .error .invalidSignature ∧
    tokBeforeRotation.signedWith = 0 ∧
    stAfterRotation.currentKeyId = 1 ∧
    86401 < tokBeforeRotation.exp := by
  refine ⟨?_, by decide, by decide, by decide⟩
  decide

open Token in
/-- C1, amended.  A key rotation immediately invalidates every token signed
with the previously loaded key pair: after `rotateKeysIfNeeded` swaps in a
fresh pair, `verifyToken` rejects prior-key tokens with an invalid-signature
error, and a token issued after the rotation verifies only against the new
key (it verifies under the post-rotation state and is rejected under any
state holding a different key).  No overlap window exists. -/
theorem C1_rotation_invalidates_prior_key (cfg : Token.Config) (st : Token.KeyState)
    (now freshKeyId : Nat) (tok : Token.SignedToken) (nowSec : Nat) :
    (tok.signedWith = st.currentKeyId →
      (Token.rotateKeysIfNeeded cfg st now freshKeyId).currentKeyId ≠ tok.signedWith →
      Token.verifyToken cfg (Token.rotateKeysIfNeeded cfg st now freshKeyId) tok nowSec =
        .error .invalidSignature) ∧
    (∀ st2 : Token.KeyState, st2.currentKeyId ≠ tok.signedWith →
      Token.verifyToken cfg st2 tok nowSec = .error .invalidSignature) := by
  constructor
  · intro _ hne
    unfold Token.verifyToken
    rw [if_pos]
    exact fun h => hne h.symm
  · intro st2 hne
    unfold Token.verifyToken
    rw [if_pos]
    exact fun h => hne h.symm

open Token in
/-- C1, witness for the amended theorem: a concrete rotation from key 0 to
key 1, with the prior-key token from the counterexample scenario. -/
theorem C1_rotation_invalidates_prior_key_witness :
    Token.verifyToken cfgProd
      (Token.rotateKeysIfNeeded cfgProd { currentKeyId := 0, lastKeyRotation := 0 } 86400002 1)
      tokBeforeRotation 86401 = .error .invalidSignature := by
  exact (C1_rotation_invalidates_prior_key cfgProd
    { currentKeyId := 0, lastKeyRotation := 0 } 86400002 1 tokBeforeRotation 86401).1
    (by decide) (by decide)

namespace Token

/-- A validly signed, unexpired token carrying a `deviceId` but no
`fingerprint` claim, as issued before the fingerprint feature existed. -/
def tokNoFp : SignedToken :=
  { payload := { userId := some "u7", deviceId := some "dev-1", fingerprint := none,
                 iss := none, aud := none, iat := none, extra := [] },
    exp := 100, signedWith := 0 }

/-- A device-bound token issued in local mode at t = 1000 ms under key 0. -/
def tokWithFp : SignedToken :=
  (generateToken cfgLocal { currentKeyId := 0, lastKeyRotation := 0 } claimsEx
    3600 true 1000 99).1

end Token

open Token in
/-- C2, counterexample.  `verifyToken` returns the embedded claims of a
token that carries a `deviceId` but no fingerprint: the token is accepted
although its recomputed device fingerprint equals no embedded fingerprint,
so acceptance does not require the fingerprint comparison to succeed. -/
theorem C2_counterexample :
    Token.verifyToken cfgLocal { currentKeyId := 0, lastKeyRotation := 0 } tokNoFp 5 =
      .ok tokNoFp.payload ∧
    tokNoFp.payload.deviceId = some "dev-1" ∧
    tokNoFp.payload.fingerprint ≠
      some (Token.generateDeviceFingerprint cfgLocal tokNoFp.payload.deviceId
        tokNoFp.payload.userId) := by
  refine ⟨?_, by decide, by decide⟩
  decide

open Token in
/-- C2, amended.  `verifyToken` returns claims `p` exactly when `p` is the
embedded payload, unmodified, the signature validates under the currently
loaded key, the token is unexpired, audience and issuer check out in
non-local mode, and — when the token truthily embeds both a fingerprint
and a deviceId (present and non-empty, per JS falsiness) — the fingerprint
recomputed from the token's deviceId and userId equals the embedded one.
Tokens with either field falsy skip the fingerprint comparison. -/
theorem C2_verify_characterization (cfg : Token.Config) (st : Token.KeyState)
    (tok : Token.SignedToken) (nowSec : Nat) (p : Token.JwtPayload) :
    Token.verifyToken cfg st tok nowSec = .ok p ↔
      (p = tok.payload ∧ tok.signedWith = st.currentKeyId ∧ nowSec < tok.exp ∧
       (cfg.isLocal = false →
          tok.payload.aud = some "tracas-app" ∧ tok.payload.iss = some "tracas-api") ∧
       (Token.optTruthy tok.payload.fingerprint = true →
        Token.optTruthy tok.payload.deviceId = true →
          tok.payload.fingerprint =
            some (Token.generateDeviceFingerprint cfg tok.payload.deviceId
              tok.payload.userId))) := by
  unfold Token.verifyToken
  split_ifs with h1 h2 h3 h4 h5 h6
  · constructor
    · intro h; cases h
    · rintro ⟨_, hs, _⟩; exact absurd hs h1
  · constructor
    · intro h; cases h
    · rintro ⟨_, _, hlt, _⟩; omega
  · constructor
    · intro h; cases h
    · rintro ⟨_, _, _, hia, _⟩; exact h3.2 (hia h3.1).1
  · constructor
    · intro h; cases h
    · rintro ⟨_, _, _, hia, _⟩; exact h4.2 (hia h4.1).2
  · push_neg at h1
    constructor
    · intro h
      injection h with h
      refine ⟨h.symm, h1, by omega, ?_, ?_⟩
      · intro hl
        constructor
        · by_contra hc; exact h3 ⟨hl, hc⟩
        · by_contra hc; exact h4 ⟨hl, hc⟩
      · intro hfp hdev
        rcases h5 with h | h
        · rw [hfp] at h; cases h
        · rw [hdev] at h; cases h
    · rintro ⟨hp, _⟩; rw [hp]
  · push_neg at h5
    constructor
    · intro h; cases h
    · rintro ⟨_, _, _, _, hfp⟩
      exact h6 (hfp (Bool.ne_false_iff.mp h5.1) (Bool.ne_false_iff.mp h5.2))
  · push_neg at h1 h5 h6
    constructor
    · intro h
      injection h with h
      refine ⟨h.symm, h1, by omega, ?_, fun _ _ => h6⟩
      intro hl
      constructor
      · by_contra hc; exact h3 ⟨hl, hc⟩
      · by_contra hc; exact h4 ⟨hl, hc⟩
    · rintro ⟨hp, _⟩; rw [hp]

open Token in
/-- C2, witness: a concrete device-bound token issued in local mode is
accepted with its original claims, through the characterization. -/
theorem C2_verify_characterization_witness :
    Token.verifyToken cfgLocal { currentKeyId := 0, lastKeyRotation := 0 } tokWithFp 5 =
      .ok tokWithFp.payload := by
  exact (C2_verify_characterization cfgLocal { currentKeyId := 0, lastKeyRotation := 0 }
    tokWithFp 5 tokWithFp.payload).mpr
    ⟨rfl, by decide, by decide, by decide, by decide⟩

namespace Aead

/-- Seed for the modelled keystream, folding a byte list into a number. -/
def mix (l : List Nat) : Nat := l.foldl (fun a b => (a * 257 + b) % 1000003) 7

/-- Byte `i` of the AES-256-GCM counter-mode keystream for `key` and `iv`,
modelled as an explicit pseudorandom function of both. -/
def ksByte (key iv : List Nat) (i : Nat) : Nat :=
  (mix key * 131 + mix iv * 31 + i * 7 + 5) % 256

/-- The counter-mode pass: xor the byte stream with the keystream starting
at position `i`.  `cipher.update`/`final` and `decipher.update`/`final`
are this same operation. -/
def ctr (key iv : List Nat) : Nat → List Nat → List Nat
  | _, [] => []
  | i, b :: bs => (b ^^^ ksByte key iv i) :: ctr key iv (i + 1) bs

/-- Length-prefixed encoding of a byte list, the building block of the
injective tag encoding. -/
def lenc (l : List Nat) : List Nat := l.length :: l

/-- Encoding of the optional associated data into the tag input. -/
def aadEnc : Option (List Nat) → List Nat
  | none => [0]
  | some a => 1 :: a

/-- The GCM authentication tag over key, IV, associated data and
ciphertext, modelled as an ideal (injective) MAC. -/
def gcmTag (key iv : List Nat) (aad : Option (List Nat)) (ct : List Nat) : List Nat :=
  lenc key ++ lenc iv ++ lenc (aadEnc aad) ++ lenc ct

/-- Bytes of a string (the model works at scalar-value granularity). -/
def strBytes (s : String) : List Nat := s.toList.map Char.toNat

/-- `JSON.stringify` of the associated-data context object. -/
def jsonOfCtx (ctx : List (String × String)) : String :=
  "\x7b" ++ String.intercalate ","
    (ctx.map (fun p => "\"" ++ p.1 ++ "\":\"" ++ p.2 ++ "\"")) ++ "\x7d"

/-- `cipher.setAAD` is invoked only when the context object has at least
one key (`Object.keys(associatedData).length > 0`). -/
def aadOfCtx (ctx : List (String × String)) : Option (List Nat) :=
  if ctx = [] then none else some (strBytes (jsonOfCtx ctx))

/-- The object returned by `KeyManager.encrypt` (base64 transport of the
byte fields is injective and is modelled away). -/
structure EncryptedData where
  data : List Nat
  iv : List Nat
  authTag : List Nat
  keyId : Nat
  algorithm : String
  hasAssociatedData : Bool
deriving DecidableEq, Repr

/-- The in-memory encryption key record of the `KeyManager` singleton. -/
structure KeyManager where
  encryptionKey : List Nat
  encryptionKeyId : Nat
deriving DecidableEq, Repr

/-- `KeyManager.encrypt(data, associatedData)` with the random IV made
explicit: counter-mode encryption plus the authentication tag. -/
def encrypt (km : KeyManager) (data : List Nat) (ctx : List (String × String))
    (iv : List Nat) : EncryptedData :=
  let ct := ctr km.encryptionKey iv 0 data
  { data := ct, iv := iv, authTag := gcmTag km.encryptionKey iv (aadOfCtx ctx) ct,
    keyId := km.encryptionKeyId, algorithm := "aes-256-gcm", hasAssociatedData := true }

/-- `KeyManager.decrypt(encryptedData, associatedData)`: rejects an
algorithm mismatch, recomputes and checks the authentication tag
(`decipher.final()` throws on mismatch — `none` models the throw of
`Decryption failed, data may be tampered with or key is invalid`), then
reverses the counter-mode pass. -/
def decrypt (km : KeyManager) (ed : EncryptedData) (ctx : List (String × String)) :
    Option (List Nat) :=
  if ed.algorithm ≠ "aes-256-gcm" then none
  else if ed.authTag ≠ gcmTag km.encryptionKey ed.iv (aadOfCtx ctx) ed.data then none
  else some (ctr km.encryptionKey ed.iv 0 ed.data)

/-- Continuation byte test of the WHATWG UTF-8 decoder. -/
def isCont (b : Nat) : Bool := decide (128 ≤ b ∧ b ≤ 191)

/-- Allowed second byte after a three-byte leader. -/
def cont3ok (b b2 : Nat) : Bool :=
  if b = 224 then decide (160 ≤ b2 ∧ b2 ≤ 191)
  else if b = 237 then decide (128 ≤ b2 ∧ b2 ≤ 159)
  else isCont b2

/-- Allowed second byte after a four-byte leader. -/
def cont4ok (b b2 : Nat) : Bool :=
  if b = 240 then decide (144 ≤ b2 ∧ b2 ≤ 191)
  else if b = 244 then decide (128 ≤ b2 ∧ b2 ≤ 143)
  else isCont b2

/-- Worker of the UTF-8 decoder.  Every step consumes at least one byte,
so fuel equal to the input length is exact; the fuel only makes the
recursion structural. -/
def nodeUtf8DecodeAux : Nat → List Nat → List Nat
  | 0, _ => []
  | _, [] => []
  | fuel + 1, b :: rest =>
    if b < 128 then b :: nodeUtf8DecodeAux fuel rest
    else if 194 ≤ b ∧ b ≤ 223 then
      match rest with
      | [] => [65533]
      | b2 :: rest2 =>
        if isCont b2 then ((b - 192) * 64 + (b2 - 128)) :: nodeUtf8DecodeAux fuel rest2
        else 65533 :: nodeUtf8DecodeAux fuel (b2 :: rest2)
    else if 224 ≤ b ∧ b ≤ 239 then
      match rest with
      | [] => [65533]
      | b2 :: rest2 =>
        if cont3ok b b2 then
          match rest2 with
          | [] => [65533]
          | b3 :: rest3 =>
            if isCont b3 then
              ((b - 224) * 4096 + (b2 - 128) * 64 + (b3 - 128)) :: nodeUtf8DecodeAux fuel rest3
            else 65533 :: nodeUtf8DecodeAux fuel (b3 :: rest3)
        else 65533 :: nodeUtf8DecodeAux fuel (b2 :: rest2)
    else if 240 ≤ b ∧ b ≤ 244 then
      match rest with
      | [] => [65533]
      | b2 :: rest2 =>
        if cont4ok b b2 then
          match rest2 with
          | [] => [65533]
          | b3 :: rest3 =>
            if isCont b3 then
              match rest3 with
              | [] => [65533]
              | b4 :: rest4 =>
                if isCont b4 then
                  ((b - 240) * 262144 + (b2 - 128) * 4096 + (b3 - 128) * 64 + (b4 - 128)) ::
                    nodeUtf8DecodeAux fuel rest4
                else 65533 :: nodeUtf8DecodeAux fuel (b4 :: rest4)
            else 65533 :: nodeUtf8DecodeAux fuel (b3 :: rest3)
        else 65533 :: nodeUtf8DecodeAux fuel (b2 :: rest2)
    else 65533 :: nodeUtf8DecodeAux fuel rest

/-- `Buffer.prototype.toString('utf8')` decoding (WHATWG): well-formed
sequences yield their scalar value, malformed bytes yield U+FFFD (65533)
and decoding resumes after the maximal subpart. -/
def nodeUtf8Decode (bs : List Nat) : List Nat := nodeUtf8DecodeAux bs.length bs

/-- UTF-8 encoding of one scalar value. -/
def utf8EncodeChar (c : Nat) : List Nat :=
  if c < 128 then [c]
  else if c < 2048 then [192 + c / 64, 128 + c % 64]
  else if c < 65536 then [224 + c / 4096, 128 + c / 64 % 64, 128 + c % 64]
  else [240 + c / 262144, 128 + c / 4096 % 64, 128 + c / 64 % 64, 128 + c % 64]

/-- UTF-8 encoding of a scalar-value sequence. -/
def utf8Encode (cs : List Nat) : List Nat := (cs.map utf8EncodeChar).flatten

/-- The byte content of the string `Buffer.prototype.toString('utf8')`
produces from `bs`: the identity exactly on well-formed UTF-8 input. -/
def nodeUtf8 (bs : List Nat) : List Nat := utf8Encode (nodeUtf8Decode bs)

/-- `encryptValue(value, context)`: `KeyManager.encrypt` followed by
`JSON.stringify`; the stringify/parse round trip of the envelope is the
identity and is modelled away. -/
def encryptValue (km : KeyManager) (value : List Nat) (ctx : List (String × String))
    (iv : List Nat) : EncryptedData :=
  encrypt km value ctx iv

/-- `decryptValue(encryptedValue, context)`: parse, `KeyManager.decrypt`,
then `decrypted.toString('utf8')` — the result carries the bytes of the
UTF-8 reading of the plaintext. -/
def decryptValue (km : KeyManager) (ed : EncryptedData) (ctx : List (String × String)) :
    Option (List Nat) :=
  (decrypt km ed ctx).map nodeUtf8

/-- A concrete key manager used in the concrete evaluations. -/
def kmEx : KeyManager := { encryptionKey := [7, 1, 3], encryptionKeyId := 0 }

/-- Length-prefixed segments decompose uniquely. -/
theorem lenc_append_inj {a b x y : List Nat} (h : lenc a ++ x = lenc b ++ y) :
    a = b ∧ x = y := by
  simp only [lenc, List.cons_append] at h
  obtain ⟨hlen, hrest⟩ := List.cons.inj h
  exact List.append_inj hrest hlen

/-- The modelled GCM tag is injective in IV, associated data and
ciphertext (an ideal MAC). -/
theorem gcmTag_inj {key iv iv2 : List Nat} {aad aad2 : Option (List Nat)}
    {ct ct2 : List Nat} (h : gcmTag key iv aad ct = gcmTag key iv2 aad2 ct2) :
    iv = iv2 ∧ aad = aad2 ∧ ct = ct2 := by
  unfold gcmTag at h
  simp only [List.append_assoc] at h
  obtain ⟨-, h⟩ := lenc_append_inj h
  obtain ⟨hiv, h⟩ := lenc_append_inj h
  obtain ⟨haad, h⟩ := lenc_append_inj h
  refine ⟨hiv, ?_, (List.cons.inj h).2⟩
  cases aad <;> cases aad2 <;> simp [aadEnc] at haad <;> simp [haad]

/-- Decrypting re-applies the keystream, recovering the plaintext. -/
theorem ctr_ctr (key iv : List Nat) : ∀ (i : Nat) (bs : List Nat),
    ctr key iv i (ctr key iv i bs) = bs := by
  intro i bs
  induction bs generalizing i with
  | nil => rfl
  | cons b bs ih => simp [ctr, Nat.xor_cancel_right, ih]

/-- The two byte lists are equal except at exactly one position, where the
bytes differ. -/
def oneByteDiff (a b : List Nat) : Prop :=
  a.length = b.length ∧
    ∃ i, a.get? i ≠ b.get? i ∧ ∀ j, j ≠ i → a.get? j = b.get? j

/-- Lists differing in one byte are unequal. -/
theorem oneByteDiff_ne {a b : List Nat} (h : oneByteDiff a b) : a ≠ b := by
  rintro rfl
  obtain ⟨-, i, hne, -⟩ := h
  exact hne rfl

end Aead

/-- C3, counterexample.  For the byte sequence `[255]` (not valid UTF-8),
`decryptValue(encryptValue(x))` under a stable key and identical context
does not return `x`: `decryptValue` reads the decrypted buffer as UTF-8,
so the invalid byte 0xFF comes back as the replacement character U+FFFD
(bytes 239,191,189). -/
theorem C3_counterexample :
    Aead.decryptValue Aead.kmEx (Aead.encryptValue Aead.kmEx [255] [] [9, 9]) [] ≠
      some [255] ∧
    Aead.decryptValue Aead.kmEx (Aead.encryptValue Aead.kmEx [255] [] [9, 9]) [] =
      some [239, 191, 189] := by
  constructor
  · decide
  · decide

/-- C3, amended.  Under a stable key and the same associated-data context,
`KeyManager.decrypt(KeyManager.encrypt(x))` recovers every byte sequence
`x` exactly, and `decryptValue(encryptValue(x))` returns the UTF-8 reading
of `x` — hence `x` itself exactly when `x` is well-formed UTF-8 (in
particular for every string input). -/
theorem C3_roundtrip (km : Aead.KeyManager) (x : List Nat)
    (ctx : List (String × String)) (iv : List Nat) :
    Aead.decrypt km (Aead.encrypt km x ctx iv) ctx = some x ∧
    Aead.decryptValue km (Aead.encryptValue km x ctx iv) ctx =
      some (Aead.nodeUtf8 x) := by
  have h1 : Aead.decrypt km (Aead.encrypt km x ctx iv) ctx = some x := by
    unfold Aead.decrypt Aead.encrypt
    simp [Aead.ctr_ctr]
  refine ⟨h1, ?_⟩
  unfold Aead.decryptValue Aead.encryptValue
  rw [h1]
  rfl

/-- C4.  Any single-byte modification of the ciphertext, the IV, or the
authentication tag of an `encryptValue` output makes decryption fail
closed (the model's `none` is the thrown decryption-failure error); no
plaintext — in particular no wrong plaintext — is ever returned for the
tampered value.  The GCM tag is modelled as an ideal MAC. -/
theorem C4_single_byte_tamper_fails (km : Aead.KeyManager) (x : List Nat)
    (ctx : List (String × String)) (iv : List Nat) (ed2 : Aead.EncryptedData)
    (h :
      (Aead.oneByteDiff (Aead.encrypt km x ctx iv).data ed2.data ∧
        ed2.iv = (Aead.encrypt km x ctx iv).iv ∧
        ed2.authTag = (Aead.encrypt km x ctx iv).authTag) ∨
      (Aead.oneByteDiff (Aead.encrypt km x ctx iv).iv ed2.iv ∧
        ed2.data = (Aead.encrypt km x ctx iv).data ∧
        ed2.authTag = (Aead.encrypt km x ctx iv).authTag) ∨
      (Aead.oneByteDiff (Aead.encrypt km x ctx iv).authTag ed2.authTag ∧
        ed2.data = (Aead.encrypt km x ctx iv).data ∧
        ed2.iv = (Aead.encrypt km x ctx iv).iv)) :
    Aead.decrypt km ed2 ctx = none ∧ Aead.decryptValue km ed2 ctx = none := by
  have hdec : Aead.decrypt km ed2 ctx = none := by
    unfold Aead.decrypt
    by_cases halg : ed2.algorithm = "aes-256-gcm"
    · rw [if_neg (not_not_intro halg), if_pos]
      have htagdef : (Aead.encrypt km x ctx iv).authTag =
          Aead.gcmTag km.encryptionKey (Aead.encrypt km x ctx iv).iv (Aead.aadOfCtx ctx)
            (Aead.encrypt km x ctx iv).data := rfl
      rcases h with ⟨hd, hiv, hat⟩ | ⟨hiv, hd, hat⟩ | ⟨hat, hd, hiv⟩
      · intro heq
        rw [hat, hiv, htagdef] at heq
        exact Aead.oneByteDiff_ne hd (Aead.gcmTag_inj heq).2.2
      · intro heq
        rw [hat, hd, htagdef] at heq
        exact Aead.oneByteDiff_ne hiv (Aead.gcmTag_inj heq).1
      · intro heq
        rw [hd, hiv, ← htagdef] at heq
        exact Aead.oneByteDiff_ne hat heq.symm
    · rw [if_pos halg]
  exact ⟨hdec, by unfold Aead.decryptValue; rw [hdec]; rfl⟩

namespace Aead

/-- A concrete encryption of the bytes "AB". -/
def edEx : EncryptedData := encrypt kmEx [65, 66] [] [9, 9]

/-- `edEx` with the first byte of its authentication tag replaced. -/
def edTampered : EncryptedData := { edEx with authTag := 255 :: edEx.authTag.tail }

end Aead

/-- C4, witness: a concrete output with one auth-tag byte changed is
rejected by decryption. -/
theorem C4_single_byte_tamper_fails_witness :
    Aead.decrypt Aead.kmEx Aead.edTampered [] = none ∧
    Aead.decryptValue Aead.kmEx Aead.edTampered [] = none := by
  apply C4_single_byte_tamper_fails Aead.kmEx [65, 66] [] [9, 9] Aead.edTampered
  refine Or.inr (Or.inr ⟨⟨by decide, 0, by decide, ?_⟩, rfl, rfl⟩)
  intro j hj
  cases j with
  | zero => exact absurd rfl hj
  | succ n => rfl


namespace JsMap

/-- `Map.prototype.get`, on an association-list model of a JS `Map`. -/
def mapGet {α : Type} (m : List (String × α)) (k : String) : Option α :=
  (m.find? (fun p => p.1 == k)).map (fun p => p.2)

/-- `Map.prototype.set`: the updated binding shadows and replaces any
previous one. -/
def mapSet {α : Type} (m : List (String × α)) (k : String) (v : α) : List (String × α) :=
  (k, v) :: m.filter (fun p => p.1 != k)

/-- Reading the key just written returns the written value. -/
theorem mapGet_mapSet_self {α : Type} (m : List (String × α)) (k : String) (v : α) :
    mapGet (mapSet m k v) k = some v := by
  simp [mapGet, mapSet, List.find?]

/-- Dropping the bindings of key `k` does not change the lookup of any
other key. -/
theorem find_filter_ne {α : Type} (m : List (String × α)) (k k' : String) (h : k' ≠ k) :
    (m.filter (fun p => p.1 != k)).find? (fun p => p.1 == k') =
      m.find? (fun p => p.1 == k') := by
  induction m with
  | nil => rfl
  | cons a m ih =>
    by_cases ha : a.1 = k
    · rw [List.filter_cons_of_neg (by simp [ha]), ih,
        List.find?_cons_of_neg _ (by simp [ha]; exact fun hc => h hc.symm)]
    · by_cases hk2 : a.1 = k'
      · rw [List.filter_cons_of_pos (by simp [ha]),
          List.find?_cons_of_pos _ (by simp [hk2]), List.find?_cons_of_pos _ (by simp [hk2])]
      · rw [List.filter_cons_of_pos (by simp [ha]),
          List.find?_cons_of_neg _ (by simp [hk2]), List.find?_cons_of_neg _ (by simp [hk2]),
          ih]

/-- Writing one key leaves every other key unchanged. -/
theorem mapGet_mapSet_ne {α : Type} (m : List (String × α)) (k k' : String) (v : α)
    (h : k' ≠ k) : mapGet (mapSet m k v) k' = mapGet m k' := by
  unfold mapGet mapSet
  rw [List.find?_cons_of_neg _ (by simp; exact fun hc => h hc.symm), find_filter_ne m k k' h]

end JsMap

namespace TwoFactor

open JsMap

/-- The SHA-256 digest of `code + userId` stored for a backup code,
modelled as an ideal collision-free hash (the argument pair itself). -/
def backupHash (code userId : String) : String × String := (code, userId)

/-- The `TwoFactorAuth` instance state: the master secret-encryption key
and the in-memory `backupCodes` map from user id to stored hashes. -/
structure TfaState where
  secretEncryptionKey : String
  backupCodes : List (String × List (String × String))
deriving DecidableEq, Repr

/-- The stored backup-code hashes of one user. -/
def getHashes (st : TfaState) (userId : String) : List (String × String) :=
  (mapGet st.backupCodes userId).getD []

/-- `generateBackupCodes(userId, count)`: the randomly generated codes are
the explicit `codes` argument; only their salted hashes are stored. -/
def generateBackupCodes (st : TfaState) (userId : String) (codes : List String) :
    List String × TfaState :=
  (codes,
    { st with backupCodes :=
        mapSet st.backupCodes userId (codes.map (fun c => backupHash c userId)) })

/-- `verifyBackupCode(code, userId)`: hash the input, look it up among the
stored hashes, and on success remove the first matching stored hash
(`indexOf` + `splice(index, 1)`). -/
def verifyBackupCode (st : TfaState) (code userId : String) : Bool × TfaState :=
  match mapGet st.backupCodes userId with
  | none => (false, st)
  | some storedHashes =>
    if storedHashes = [] then (false, st)
    else if backupHash code userId ∈ storedHashes then
      (true,
        { st with backupCodes :=
            mapSet st.backupCodes userId (storedHashes.erase (backupHash code userId)) })
    else (false, st)

/-- A sequence of later `verifyBackupCode` calls, applied in order. -/
def runVerifies (st : TfaState) (calls : List (String × String)) : TfaState :=
  calls.foldl (fun s p => (verifyBackupCode s p.1 p.2).2) st

/-- `verifyBackupCode` never (re-)adds a stored hash. -/
theorem verify_not_add (st : TfaState) (c u c2 u2 : String)
    (h : backupHash c u ∉ getHashes st u) :
    backupHash c u ∉ getHashes (verifyBackupCode st c2 u2).2 u := by
  unfold verifyBackupCode
  cases hget : mapGet st.backupCodes u2 with
  | none => exact h
  | some storedHashes =>
    dsimp only
    split_ifs with h1 h2
    · exact h
    · by_cases hu : u = u2
      · subst hu
        have hsh : getHashes st u = storedHashes := by
          unfold getHashes
          rw [hget]
          rfl
        unfold getHashes
        dsimp only
        rw [mapGet_mapSet_self]
        intro hc
        exact h (hsh ▸ List.mem_of_mem_erase hc)
      · unfold getHashes
        dsimp only
        rw [mapGet_mapSet_ne _ _ _ _ hu]
        exact h
    · exact h

/-- An absent hash stays absent across any sequence of verify calls. -/
theorem runVerifies_not_add (c u : String) (calls : List (String × String))
    (st : TfaState) (h : backupHash c u ∉ getHashes st u) :
    backupHash c u ∉ getHashes (runVerifies st calls) u := by
  induction calls generalizing st with
  | nil => exact h
  | cons p calls ih =>
    exact ih _ (verify_not_add st c u p.1 p.2 h)

/-- A code whose hash is not stored is rejected. -/
theorem verify_false_of_not_mem (st : TfaState) (c u : String)
    (h : backupHash c u ∉ getHashes st u) :
    (verifyBackupCode st c u).1 = false := by
  unfold verifyBackupCode
  cases hget : mapGet st.backupCodes u with
  | none => rfl
  | some storedHashes =>
    dsimp only
    have hmem : backupHash c u ∉ storedHashes := by
      intro hc
      apply h
      unfold getHashes
      rw [hget]
      exact hc
    by_cases h1 : storedHashes = []
    · rw [if_pos h1]
    · rw [if_neg h1, if_neg hmem]

end TwoFactor

open TwoFactor JsMap in
/-- C5.  After `generateBackupCodes` stores the hashes of a set of codes
(`Nodup` renders "set"), `verifyBackupCode` with one of those codes
returns true on the first call, and — the consumed hash having been
irreversibly removed — returns false after any sequence of later
`verifyBackupCode` calls, in particular on every retry of the same code. -/
theorem C5_backup_code_single_use (st : TwoFactor.TfaState) (userId : String)
    (codes : List String) (code : String) (hmem : code ∈ codes) (hnd : codes.Nodup)
    (calls : List (String × String)) :
    (TwoFactor.verifyBackupCode
      (TwoFactor.generateBackupCodes st userId codes).2 code userId).1 = true ∧
    (TwoFactor.verifyBackupCode
      (TwoFactor.runVerifies
        (TwoFactor.verifyBackupCode
          (TwoFactor.generateBackupCodes st userId codes).2 code userId).2 calls)
      code userId).1 = false := by
  have hget1 : mapGet (generateBackupCodes st userId codes).2.backupCodes userId =
      some (codes.map (fun c => backupHash c userId)) :=
    mapGet_mapSet_self _ _ _
  have hne : codes.map (fun c => backupHash c userId) ≠ [] := by
    intro h0
    rw [List.map_eq_nil_iff] at h0
    subst h0
    cases hmem
  have hmemh : backupHash code userId ∈ codes.map (fun c => backupHash c userId) :=
    List.mem_map_of_mem _ hmem
  have hfirst : verifyBackupCode (generateBackupCodes st userId codes).2 code userId =
      (true,
       { (generateBackupCodes st userId codes).2 with
           backupCodes := mapSet (generateBackupCodes st userId codes).2.backupCodes userId
             ((codes.map (fun c => backupHash c userId)).erase (backupHash code userId)) }) := by
    unfold verifyBackupCode
    rw [hget1]
    dsimp only
    rw [if_neg hne, if_pos hmemh]
  refine ⟨by rw [hfirst], ?_⟩
  apply verify_false_of_not_mem
  apply runVerifies_not_add
  rw [hfirst]
  unfold getHashes
  dsimp only
  rw [mapGet_mapSet_self]
  have hndh : (codes.map (fun c => backupHash c userId)).Nodup :=
    hnd.map (fun a b hab => (Prod.ext_iff.mp hab).1)
  intro hc
  exact ((List.Nodup.mem_erase_iff hndh).mp hc).1 rfl

namespace TwoFactor

/-- A fresh two-factor manager used in concrete evaluations. -/
def tfaStEx : TfaState := { secretEncryptionKey := "master", backupCodes := [] }

end TwoFactor

open TwoFactor in
/-- C5, witness: a concrete code from a freshly generated pair verifies
once, and a retry after one repeated attempt fails. -/
theorem C5_backup_code_single_use_witness :
    (TwoFactor.verifyBackupCode
      (TwoFactor.generateBackupCodes tfaStEx "u1"
        ["ab12-cd34-ef56", "9999-8888-7777"]).2 "ab12-cd34-ef56" "u1").1 = true ∧
    (TwoFactor.verifyBackupCode
      (TwoFactor.runVerifies
        (TwoFactor.verifyBackupCode
          (TwoFactor.generateBackupCodes tfaStEx "u1"
            ["ab12-cd34-ef56", "9999-8888-7777"]).2 "ab12-cd34-ef56" "u1").2
        [("ab12-cd34-ef56", "u1")]) "ab12-cd34-ef56" "u1").1 = false := by
  exact C5_backup_code_single_use tfaStEx "u1" ["ab12-cd34-ef56", "9999-8888-7777"]
    "ab12-cd34-ef56" (by decide) (by decide) [("ab12-cd34-ef56", "u1")]

namespace TwoFactor

/-- The account object handed to `generateSecret`. -/
structure User where
  id : String
  email : Option String
  username : Option String
deriving DecidableEq, Repr

/-- `this.issuer` of the `TwoFactorAuth` class. -/
def issuerTag : String := "TRACAS Admin"

/-- One lowercase hex digit. -/
def hexDigit (n : Nat) : Char := "0123456789abcdef".toList.getD n 'x'

/-- Two hex digits of one byte. -/
def hexByte (b : Nat) : String := String.mk [hexDigit (b / 16 % 16), hexDigit (b % 16)]

/-- `Buffer.prototype.toString('hex')`. -/
def hexOfBytes (bs : List Nat) : String := String.join (bs.map hexByte)

/-- The per-account key `sha256(secretEncryptionKey + userId)`, the digest
modelled as an ideal (injective) byte digest. -/
def tfaKey (master userId : String) : List Nat := Aead.strBytes (master ++ userId)

/-- `encryptSecret(secret, userId)`: AES-256-CBC under the per-account key
with a random IV (made explicit), returning `ivHex:cipherHex`.  The block
cipher is modelled with the keyed stream of the `Aead` section. -/
def tfaEncryptSecret (master userId secret : String) (iv : List Nat) : String :=
  hexOfBytes iv ++ ":" ++
    hexOfBytes (Aead.ctr (tfaKey master userId) iv 0 (Aead.strBytes secret))

/-- The `speakeasy` account label: `issuer:(email || username)`. -/
def accountLabel (u : User) : String :=
  issuerTag ++ ":" ++
    (match u.email with
     | some e => if e = "" then Token.optStr u.username else e
     | none => Token.optStr u.username)

/-- The `otpauth://` provisioning URI derived from the secret. -/
def otpauthUrl (secret name issuerName : String) : String :=
  "otpauth://totp/" ++ name ++ "?secret=" ++ secret ++ "&issuer=" ++ issuerName

/-- `qrcode.toDataURL`: the scannable rendering of the URI, modelled as an
injective data-URL rendering. -/
def qrRender (url : String) : String := "data:image/png;base64," ++ url

/-- The object `generateSecret` resolves with. -/
structure SetupResult where
  secret : String
  qrCode : String
  encryptedSecret : String
  backupCodes : List String
deriving DecidableEq, Repr

/-- `generateSecret(user)`: the random TOTP secret, the random cipher IV
and the random backup codes are explicit arguments.  Derives the
provisioning URI, renders the QR code, encrypts the secret, generates the
backup codes, and returns all of it; the only state written is the
backup-code hash store. -/
def generateSecret (st : TfaState) (u : User) (secret : String) (iv : List Nat)
    (codes : List String) : SetupResult × TfaState :=
  let otpUrl := otpauthUrl secret (accountLabel u) issuerTag
  let qr := qrRender otpUrl
  let enc := tfaEncryptSecret st.secretEncryptionKey u.id secret iv
  let pair := generateBackupCodes st u.id codes
  ({ secret := secret, qrCode := qr, encryptedSecret := enc, backupCodes := pair.1 },
    pair.2)

/-- Example account in concrete evaluations. -/
def userEx : User := { id := "u1", email := some "parent@mail.id", username := none }

end TwoFactor

open TwoFactor in
/-- C9, counterexample.  The object `generateSecret` returns to its caller
contains the plaintext TOTP secret itself (field `secret`), alongside the
encrypted form — it does not return only the encrypted secret. -/
theorem C9_counterexample :
    ((TwoFactor.generateSecret tfaStEx userEx "JBSWY3DPEHPK3PXP" [1, 2]
        ["c1-c1-c1", "c2-c2-c2"]).1).secret = "JBSWY3DPEHPK3PXP" ∧
    ((TwoFactor.generateSecret tfaStEx userEx "JBSWY3DPEHPK3PXP" [1, 2]
        ["c1-c1-c1", "c2-c2-c2"]).1).secret ≠
      ((TwoFactor.generateSecret tfaStEx userEx "JBSWY3DPEHPK3PXP" [1, 2]
        ["c1-c1-c1", "c2-c2-c2"]).1).encryptedSecret := by
  constructor
  · rfl
  · decide

open TwoFactor in
/-- C9, amended.  `generateSecret` derives the provisioning URI from the
random secret, renders it as a scannable code, and returns the encrypted
secret together with the plaintext secret and the QR code (both needed for
provisioning); nothing else is persisted: the manager state after the call
stores only the backup-code hashes and is independent of the secret, so
the plaintext secret is never persisted. -/
theorem C9_generateSecret_returns_plaintext_and_encrypted (st : TwoFactor.TfaState)
    (u : TwoFactor.User) (secret : String) (iv : List Nat) (codes : List String) :
    ((TwoFactor.generateSecret st u secret iv codes).1).encryptedSecret =
      TwoFactor.tfaEncryptSecret st.secretEncryptionKey u.id secret iv ∧
    ((TwoFactor.generateSecret st u secret iv codes).1).qrCode =
      TwoFactor.qrRender
        (TwoFactor.otpauthUrl secret (TwoFactor.accountLabel u) TwoFactor.issuerTag) ∧
    ((TwoFactor.generateSecret st u secret iv codes).1).secret = secret ∧
    (∀ secret2 : String,
      (TwoFactor.generateSecret st u secret iv codes).2 =
        (TwoFactor.generateSecret st u secret2 iv codes).2) := by
  exact ⟨rfl, rfl, rfl, fun _ => rfl⟩

namespace Csrf

/-- The slice of an Express request that `verifyCsrfToken` reads: the
method, the `csrfToken` cookie and the `x-csrf-token` header. -/
structure CsrfRequest where
  method : String
  cookieToken : Option String
  headerToken : Option String
deriving DecidableEq, Repr

/-- The middleware outcome: pass the request on, or answer with a status
and a message body. -/
inductive CsrfOutcome where
  | passed
  | rejected (status : Nat) (message : String)
deriving DecidableEq, Repr

/-- JS truthiness of a possibly-absent string: absent and the empty
string are falsy. -/
def truthy : Option String → Bool
  | none => false
  | some s => !s.isEmpty

/-- `verifyCsrfToken(req, res, next)`: safe methods skip the check; for
all others both tokens must be (truthily) present, and equal. -/
def verifyCsrfToken (req : CsrfRequest) : CsrfOutcome :=
  if req.method = "GET" ∨ req.method = "HEAD" ∨ req.method = "OPTIONS" then .passed
  else if truthy req.cookieToken = false ∨ truthy req.headerToken = false then
    .rejected 403 "CSRF token missing"
  else if req.cookieToken ≠ req.headerToken then .rejected 403 "CSRF token invalid"
  else .passed

end Csrf

open Csrf in
/-- C6.  GET/HEAD/OPTIONS always pass regardless of token state; any other
method passes exactly when the CSRF cookie and the echoed header are both
present (JS-truthily, i.e. non-empty) and byte-for-byte equal; and every
rejection is a 403 with one of the two forgery-specific messages. -/
theorem C6_csrf_double_submit (req : Csrf.CsrfRequest) :
    (req.method = "GET" ∨ req.method = "HEAD" ∨ req.method = "OPTIONS" →
      Csrf.verifyCsrfToken req = .passed) ∧
    (¬(req.method = "GET" ∨ req.method = "HEAD" ∨ req.method = "OPTIONS") →
      (Csrf.verifyCsrfToken req = .passed ↔
        Csrf.truthy req.cookieToken = true ∧ Csrf.truthy req.headerToken = true ∧
        req.cookieToken = req.headerToken)) ∧
    (∀ s m, Csrf.verifyCsrfToken req = .rejected s m →
      s = 403 ∧ (m = "CSRF token missing" ∨ m = "CSRF token invalid")) := by
  refine ⟨?_, ?_, ?_⟩
  · intro hsafe
    unfold Csrf.verifyCsrfToken
    rw [if_pos hsafe]
  · intro hunsafe
    unfold Csrf.verifyCsrfToken
    rw [if_neg hunsafe]
    constructor
    · intro h
      by_cases h1 : Csrf.truthy req.cookieToken = false ∨ Csrf.truthy req.headerToken = false
      · rw [if_pos h1] at h
        cases h
      · by_cases h2 : req.cookieToken ≠ req.headerToken
        · rw [if_neg h1, if_pos h2] at h
          cases h
        · push_neg at h1 h2
          exact ⟨Bool.ne_false_iff.mp h1.1, Bool.ne_false_iff.mp h1.2, h2⟩
    · rintro ⟨hc, hh, heq⟩
      rw [if_neg (by simp [hc, hh]), if_neg (by simpa using heq)]
  · intro s m
    unfold Csrf.verifyCsrfToken
    split_ifs with h1 h2 h3
    · intro h; cases h
    · intro h
      injection h with hs hm
      exact ⟨hs.symm, Or.inl hm.symm⟩
    · intro h
      injection h with hs hm
      exact ⟨hs.symm, Or.inr hm.symm⟩
    · intro h; cases h

open Csrf in
/-- C6, witness: a POST with matching non-empty tokens passes, derived
through the characterization at a concrete request. -/
theorem C6_csrf_double_submit_witness :
    Csrf.verifyCsrfToken
      { method := "POST", cookieToken := some "t0k3n", headerToken := some "t0k3n" } =
      .passed := by
  exact ((C6_csrf_double_submit
    { method := "POST", cookieToken := some "t0k3n", headerToken := some "t0k3n" }).2.1
    (by decide)).mpr ⟨by decide, by decide, rfl⟩

namespace Waf

/-- ASCII lowercase folding of a character code (the `/i` regex flag). -/
def lowerCode (c : Nat) : Nat := if 65 ≤ c ∧ c ≤ 90 then c + 32 else c

/-- The character codes of a string. -/
def strCodes (s : String) : List Nat := s.toList.map Char.toNat

/-- One regex atom of the WAF signature set. -/
inductive RAtom where
  | lit (c : Nat)
  | anyc
  | negCls (cs : List Nat)
  | wsp
deriving DecidableEq, Repr

/-- Whether an atom matches one character: a case-insensitive literal, `.`
(anything but a line terminator), a `[^...]` class, or `\s`. -/
def atomMatch : RAtom → Nat → Bool
  | .lit l, c => lowerCode c == lowerCode l
  | .anyc, c => !(c == 10 || c == 13 || c == 8232 || c == 8233)
  | .negCls cs, c => !(cs.any (fun d => lowerCode d == lowerCode c))
  | .wsp, c => c == 32 || c == 9 || c == 10 || c == 11 || c == 12 || c == 13 || c == 160

/-- One regex element: a single atom, a starred atom, or an alternation of
literal words (`(?:w1|w2|...)`). -/
inductive RElem where
  | one (a : RAtom)
  | star (a : RAtom)
  | alt (ws : List (List Nat))
deriving DecidableEq, Repr

/-- Case-insensitive literal-word prefix test. -/
def startsWithCI : List Nat → List Nat → Bool
  | [], _ => true
  | _ :: _, [] => false
  | c :: ws, d :: cs => lowerCode c == lowerCode d && startsWithCI ws cs

/-- Anchored matching with explicit fuel.  Every call consumes a pattern
element or an input character, so fuel `pattern length + input length + 1`
is exact; the fuel only makes the recursion structural. -/
def matchHere : Nat → List RElem → List Nat → Bool
  | 0, _, _ => false
  | _, [], _ => true
  | fuel + 1, .one a :: p, s =>
    match s with
    | [] => false
    | c :: s2 => atomMatch a c && matchHere fuel p s2
  | fuel + 1, .star a :: p, s =>
    matchHere fuel p s ||
      (match s with
       | [] => false
       | c :: s2 => atomMatch a c && matchHere fuel (.star a :: p) s2)
  | fuel + 1, .alt ws :: p, s =>
    ws.any (fun word => startsWithCI word s && matchHere fuel p (s.drop word.length))

/-- Unanchored matching: try the anchored match at every suffix. -/
def searchFrom (p : List RElem) : List Nat → Bool
  | [] => matchHere (p.length + 1) p []
  | c :: s2 =>
    matchHere (p.length + (c :: s2).length + 1) p (c :: s2) || searchFrom p s2

/-- `RegExp.prototype.test` for the signature patterns. -/
def rtest (p : List RElem) (s : String) : Bool := searchFrom p (strCodes s)

/-- A sequence of case-insensitive literal characters. -/
def lits (s : String) : List RElem := (strCodes s).map (fun c => .one (.lit c))

/-- The `.*` element. -/
def dotStar : RElem := .star .anyc

/-- A `[^...]*` element over the given characters. -/
def negStar (s : String) : RElem := .star (.negCls (strCodes s))

/-- The `\s*` element. -/
def wspStar : RElem := .star .wsp

/-- A `(?:a|b|...)` alternation of literal words. -/
def altWords (ss : List String) : RElem := .alt (ss.map strCodes)

/-- `attackPatterns.sqlInjection`. -/
def sqlPatterns : List (List RElem) := [
  lits "'" ++ [dotStar] ++ lits "--",
  lits "union" ++ [dotStar] ++ lits "select",
  lits "exec" ++ [dotStar] ++ lits "sp_",
  lits "insert" ++ [dotStar] ++ lits "into" ++ [dotStar] ++ lits "values",
  lits "select" ++ [dotStar] ++ lits "from",
  lits "delete" ++ [dotStar] ++ lits "from",
  lits "drop" ++ [dotStar] ++ lits "table",
  lits "waitfor" ++ [dotStar] ++ lits "delay",
  lits ";" ++ [dotStar] ++ lits ";",
  lits "'" ++ [dotStar] ++ lits "OR" ++ [dotStar] ++ lits "'--",
  lits "'" ++ [dotStar] ++ lits "OR" ++ [dotStar] ++ lits "1=1--"]

/-- `attackPatterns.xss`. -/
def xssPatterns : List (List RElem) := [
  lits "<script" ++ [negStar ">"] ++ lits ">",
  lits "javascript:" ++ [negStar "\""],
  lits "onerror=" ++ [negStar "\""],
  lits "onload=" ++ [negStar "\""],
  lits "onclick=" ++ [negStar "\""],
  lits "eval(" ++ [negStar ")"] ++ lits ")",
  lits "alert(" ++ [negStar ")"] ++ lits ")",
  lits "document.cookie",
  lits "document.location",
  lits "document.write"]

/-- `attackPatterns.commandInjection`. -/
def cmdPatterns : List (List RElem) := [
  lits "|" ++ [wspStar, altWords ["cmd", "command", "powershell", "bash", "sh", "ksh", "csh"]],
  lits ";" ++ [wspStar, altWords ["cmd", "command", "powershell", "bash", "sh", "ksh", "csh"]],
  lits "`" ++ [dotStar] ++ lits "`",
  lits "system(" ++ [dotStar] ++ lits ")",
  lits "exec(" ++ [dotStar] ++ lits ")",
  lits "$(" ++ [negStar ")"] ++ lits ")",
  lits "|" ++ [wspStar, altWords ["ls", "dir", "cat", "ps", "netstat"]]]

/-- `attackPatterns.pathTraversal`. -/
def pathPatterns : List (List RElem) := [
  lits "../../../",
  lits "..\\..\\..//",
  lits "etc/passwd",
  lits "etc/shadow",
  lits "/proc/self/environ",
  lits "/var/log/",
  lits "/windows/system32/",
  lits "c:\\windows\\system32"]

/-- `attackPatterns.filenames`. -/
def filePatterns : List (List RElem) := [
  lits ".htaccess",
  lits ".htpasswd",
  lits "config.php",
  lits "wp-config.php",
  lits "config.ini",
  lits ".env",
  lits ".git/",
  lits ".svn/"]

/-- `analyzePayload(payload, category)`: a falsy (empty) payload is never
detected; otherwise the score counts the matching signatures of the
category and `detected` is a positive score.  Objects are stringified
before the scan, so the payload is its string form here. -/
def analyzePayload (payload : String) (pats : List (List RElem)) : Bool × Nat :=
  if payload.isEmpty then (false, 0)
  else (decide (0 < (pats.filter (fun p => rtest p payload)).length),
    (pats.filter (fun p => rtest p payload)).length)

end Waf

namespace Waf

/-- The per-address entry of `requestCounts`. -/
structure ReqData where
  timestamps : List Nat
  badRequests : Nat
  totalRequests : Nat
deriving DecidableEq, Repr

/-- The mutable WAF instance state, plus the rate limiter's block list
that `updateBlockList` publishes to. -/
structure WafState where
  isEnabled : Bool
  ruleSqlInjection : Bool
  ruleXss : Bool
  ruleCommandInjection : Bool
  rulePathTraversal : Bool
  ruleDdos : Bool
  ruleGeoblocking : Bool
  requestCounts : List (String × ReqData)
  blockedIPs : List String
  allowedCountries : List String
  rateLimiterBlockList : List String
deriving DecidableEq, Repr

/-- The slice of an Express request that `inspectRequest` reads.  `body`
is the JSON-stringified request body. -/
structure WafRequest where
  ip : String
  method : String
  url : String
  body : String
deriving DecidableEq, Repr

/-- The reasons a request can be blocked for; `reasonMessage` and
`categoryCode` carry the exact strings of the source. -/
inductive BlockReason where
  | ipBlocked
  | geoBlocked (country : String)
  | sqlInjection
  | xss
  | commandInjection
  | pathTraversal
  | urlSqlInjection
  | urlXss
  | urlPathTraversal
  | sensitiveFile
  | ddos
deriving DecidableEq, Repr

/-- The `reason` string of each rejection. -/
def reasonMessage : BlockReason → String
  | .ipBlocked => "IP address telah diblokir"
  | .geoBlocked c => "Akses dari negara " ++ c ++ " tidak diizinkan"
  | .sqlInjection => "Potensi SQL Injection terdeteksi"
  | .xss => "Potensi Cross-Site Scripting (XSS) terdeteksi"
  | .commandInjection => "Potensi Command Injection terdeteksi"
  | .pathTraversal => "Potensi Path Traversal terdeteksi"
  | .urlSqlInjection => "Potensi SQL Injection terdeteksi di URL"
  | .urlXss => "Potensi XSS terdeteksi di URL"
  | .urlPathTraversal => "Potensi Path Traversal terdeteksi di URL"
  | .sensitiveFile => "Akses ke file sensitif terdeteksi"
  | .ddos => "Rate limit terlampaui, potensi DDoS"

/-- The `category` field of each rejection (the plain IP-ban rejection
carries none). -/
def categoryCode : BlockReason → Option String
  | .ipBlocked => none
  | .geoBlocked _ => some "GEO_BLOCKING"
  | .sqlInjection => some "SQL_INJECTION"
  | .xss => some "XSS"
  | .commandInjection => some "COMMAND_INJECTION"
  | .pathTraversal => some "PATH_TRAVERSAL"
  | .urlSqlInjection => some "SQL_INJECTION"
  | .urlXss => some "XSS"
  | .urlPathTraversal => some "PATH_TRAVERSAL"
  | .sensitiveFile => some "SENSITIVE_FILE_ACCESS"
  | .ddos => some "DDOS_PROTECTION"

/-- The object `inspectRequest` returns. -/
structure InspectResult where
  blocked : Bool
  reason : Option BlockReason
deriving DecidableEq, Repr

/-- The non-blocking result `{ blocked: false }`. -/
def noBlock : InspectResult := { blocked := false, reason := none }

/-- `trackRequest(clientIp)`: push the current timestamp and bump the
total. -/
def trackRequest (s : WafState) (ip : String) (now : Nat) : WafState :=
  match JsMap.mapGet s.requestCounts ip with
  | none =>
    { s with requestCounts := JsMap.mapSet s.requestCounts ip ⟨[now], 0, 1⟩ }
  | some rd =>
    { s with requestCounts :=
               JsMap.mapSet s.requestCounts ip
                 ⟨rd.timestamps ++ [now], rd.badRequests, rd.totalRequests + 1⟩ }

/-- `blockIP(clientIp, reason, details)`: loopback addresses are skipped;
otherwise the address joins `blockedIPs` and `updateBlockList` publishes
the whole set to the rate limiter.  `reason` and `details` are only
logged. -/
def blockIP (s : WafState) (ip reason : String) (details : List (String × String)) :
    WafState :=
  if ip = "127.0.0.1" ∨ ip = "::1" then s
  else if ip ∈ s.blockedIPs then { s with rateLimiterBlockList := s.blockedIPs }
  else
    { s with blockedIPs := s.blockedIPs ++ [ip],
             rateLimiterBlockList := s.blockedIPs ++ [ip] }

/-- `recordBadRequest(clientIp)`: bump the bad-request count and auto-ban
once more than ten requests were seen and over half of them were bad
(`badRequests / totalRequests > 0.5` is `totalRequests < 2 * badRequests`
in exact arithmetic). -/
def recordBadRequest (s : WafState) (ip : String) : WafState :=
  match JsMap.mapGet s.requestCounts ip with
  | none => s
  | some rd =>
    if 10 < rd.totalRequests ∧ rd.totalRequests < 2 * (rd.badRequests + 1) then
      blockIP
        { s with requestCounts :=
                   JsMap.mapSet s.requestCounts ip
                     ⟨rd.timestamps, rd.badRequests + 1, rd.totalRequests⟩ }
        ip "High bad request ratio" []
    else
      { s with requestCounts :=
                 JsMap.mapSet s.requestCounts ip
                   ⟨rd.timestamps, rd.badRequests + 1, rd.totalRequests⟩ }

/-- `logAttack(clientIp, ...)`: the audit write is not modelled; the state
effect is `recordBadRequest`. -/
def logAttack (s : WafState) (ip : String) : WafState := recordBadRequest s ip

/-- `checkDDoS(clientIp)`: more than 10 requests in the last second or
more than 100 in the last minute blocks the request and auto-bans. -/
def checkDDoS (s : WafState) (ip : String) (now : Nat) : InspectResult × WafState :=
  match JsMap.mapGet s.requestCounts ip with
  | none => (noBlock, s)
  | some rd =>
    if 10 < (rd.timestamps.filter (fun t => now - 1000 < t)).length ∨
        100 < (rd.timestamps.filter (fun t => now - 60000 < t)).length then
      ({ blocked := true, reason := some .ddos }, blockIP s ip "DDoS" [])
    else (noBlock, s)

/-- Loopback and private addresses skip geo-blocking
(`clientIp.startsWith(...)`). -/
def isPrivateAddr (ip : String) : Bool :=
  ip == "127.0.0.1" || ip == "::1" ||
    List.isPrefixOf "192.168.".toList ip.toList || List.isPrefixOf "10.".toList ip.toList

/-- `checkGeolocation(clientIp)` with the geo-IP resolver as an explicit
function: unknown addresses pass; a country outside a non-empty allow
list is blocked and logged as an attack. -/
def checkGeolocation (geo : String → Option String) (s : WafState) (ip : String) :
    InspectResult × WafState :=
  if isPrivateAddr ip = true then (noBlock, s)
  else
    match geo ip with
    | none => (noBlock, s)
    | some country =>
      if s.allowedCountries ≠ [] ∧ country ∉ s.allowedCountries then
        ({ blocked := true, reason := some (.geoBlocked country) }, logAttack s ip)
      else (noBlock, s)

/-- `inspectUrl(url)`: SQL injection, XSS, path traversal, then sensitive
filenames, in order. -/
def inspectUrl (url : String) : InspectResult :=
  if (analyzePayload url sqlPatterns).1 = true then
    { blocked := true, reason := some .urlSqlInjection }
  else if (analyzePayload url xssPatterns).1 = true then
    { blocked := true, reason := some .urlXss }
  else if (analyzePayload url pathPatterns).1 = true then
    { blocked := true, reason := some .urlPathTraversal }
  else if (analyzePayload url filePatterns).1 = true then
    { blocked := true, reason := some .sensitiveFile }
  else noBlock

/-- The trailing DDoS stage of `inspectRequest`. -/
def ddosStage (s : WafState) (ip : String) (now : Nat) : InspectResult × WafState :=
  if s.ruleDdos = true then checkDDoS s ip now else (noBlock, s)

/-- The geo-blocking stage of `inspectRequest`. -/
def geoStage (geo : String → Option String) (s : WafState) (ip : String) :
    InspectResult × WafState :=
  if s.ruleGeoblocking = true then checkGeolocation geo s ip else (noBlock, s)

/-- The GET branch of `inspectRequest`: scan only the URL, then DDoS. -/
def urlStage (s : WafState) (req : WafRequest) (now : Nat) : InspectResult × WafState :=
  if (inspectUrl req.url).blocked = true then (inspectUrl req.url, logAttack s req.ip)
  else ddosStage s req.ip now

/-- The mutating branch of `inspectRequest`: the enabled categories scan
the body (and the URL for path traversal) in fixed priority order,
returning on the first match, then DDoS. -/
def bodyStage (s : WafState) (req : WafRequest) (now : Nat) : InspectResult × WafState :=
  if s.ruleSqlInjection = true ∧ (analyzePayload req.body sqlPatterns).1 = true then
    ({ blocked := true, reason := some .sqlInjection }, logAttack s req.ip)
  else if s.ruleXss = true ∧ (analyzePayload req.body xssPatterns).1 = true then
    ({ blocked := true, reason := some .xss }, logAttack s req.ip)
  else if s.ruleCommandInjection = true ∧ (analyzePayload req.body cmdPatterns).1 = true then
    ({ blocked := true, reason := some .commandInjection }, logAttack s req.ip)
  else if s.rulePathTraversal = true ∧ (analyzePayload req.url pathPatterns).1 = true then
    ({ blocked := true, reason := some .pathTraversal }, logAttack s req.ip)
  else ddosStage s req.ip now

/-- The stages after the ban check and `trackRequest`. -/
def postTrack (geo : String → Option String) (s : WafState) (req : WafRequest)
    (now : Nat) : InspectResult × WafState :=
  if (geoStage geo s req.ip).1.blocked = true then geoStage geo s req.ip
  else if req.method = "GET" then urlStage (geoStage geo s req.ip).2 req now
  else bodyStage (geoStage geo s req.ip).2 req now

/-- `inspectRequest(req)`: disabled WAF passes everything; a banned
address is rejected outright; otherwise the request is tracked and runs
through geo, signature and DDoS stages. -/
def inspectRequest (geo : String → Option String) (s : WafState) (req : WafRequest)
    (now : Nat) : InspectResult × WafState :=
  if s.isEnabled = false then (noBlock, s)
  else if req.ip ∈ s.blockedIPs then
    ({ blocked := true, reason := some .ipBlocked }, s)
  else postTrack geo (trackRequest s req.ip now) req now

end Waf

namespace Waf

/-- An unknown address passes geo-blocking with the state untouched. -/
theorem checkGeolocation_none (geo : String → Option String) (s : WafState) (ip : String)
    (hgeo : geo ip = none) : checkGeolocation geo s ip = (noBlock, s) := by
  unfold checkGeolocation
  by_cases hp : isPrivateAddr ip = true
  · rw [if_pos hp]
  · rw [if_neg hp, hgeo]

/-- The geo stage passes for an unknown address. -/
theorem geoStage_none (geo : String → Option String) (s : WafState) (ip : String)
    (hgeo : geo ip = none) : geoStage geo s ip = (noBlock, s) := by
  unfold geoStage
  split_ifs with h
  · exact checkGeolocation_none geo s ip hgeo
  · rfl

/-- `checkDDoS` passes while both window counts stay at their thresholds. -/
theorem checkDDoS_pass (s : WafState) (ip : String) (now : Nat) (rd : ReqData)
    (hget : JsMap.mapGet s.requestCounts ip = some rd)
    (h1 : (rd.timestamps.filter (fun t => now - 1000 < t)).length ≤ 10)
    (h2 : (rd.timestamps.filter (fun t => now - 60000 < t)).length ≤ 100) :
    checkDDoS s ip now = (noBlock, s) := by
  unfold checkDDoS
  rw [hget]
  dsimp only
  rw [if_neg (by omega)]

/-- The DDoS stage passes whenever `checkDDoS` does. -/
theorem ddosStage_pass (s : WafState) (ip : String) (now : Nat)
    (hcheck : checkDDoS s ip now = (noBlock, s)) : ddosStage s ip now = (noBlock, s) := by
  unfold ddosStage
  split_ifs with h
  · exact hcheck
  · rfl

/-- A banned address short-circuits `inspectRequest` with the ban
rejection and no state change. -/
theorem inspect_banned (geo : String → Option String) (s : WafState) (req : WafRequest)
    (now : Nat) (hen : s.isEnabled = true) (hmem : req.ip ∈ s.blockedIPs) :
    inspectRequest geo s req now = ({ blocked := true, reason := some .ipBlocked }, s) := by
  unfold inspectRequest
  rw [if_neg (by simp [hen]), if_pos hmem]

/-- `blockIP` never removes an address from the ban set. -/
theorem blockIP_mono {x : String} (s : WafState) (ip r : String)
    (d : List (String × String)) (hx : x ∈ s.blockedIPs) :
    x ∈ (blockIP s ip r d).blockedIPs := by
  unfold blockIP
  split_ifs with h1 h2
  · exact hx
  · exact hx
  · exact List.mem_append_left _ hx

/-- `recordBadRequest` never removes an address from the ban set. -/
theorem recordBad_mono {x : String} (s : WafState) (ip : String)
    (hx : x ∈ s.blockedIPs) : x ∈ (recordBadRequest s ip).blockedIPs := by
  unfold recordBadRequest
  cases hget : JsMap.mapGet s.requestCounts ip with
  | none => exact hx
  | some rd =>
    dsimp only
    split_ifs with h
    · exact blockIP_mono _ _ _ _ hx
    · exact hx

/-- `checkGeolocation` never removes an address from the ban set. -/
theorem checkGeolocation_mono {x : String} (geo : String → Option String) (s : WafState)
    (ip : String) (hx : x ∈ s.blockedIPs) :
    x ∈ (checkGeolocation geo s ip).2.blockedIPs := by
  unfold checkGeolocation
  split_ifs with h1
  · exact hx
  · cases hgeo : geo ip with
    | none => exact hx
    | some c =>
      dsimp only
      split_ifs with h2
      · exact recordBad_mono _ _ hx
      · exact hx

/-- The geo stage never removes an address from the ban set. -/
theorem geoStage_mono {x : String} (geo : String → Option String) (s : WafState)
    (ip : String) (hx : x ∈ s.blockedIPs) : x ∈ (geoStage geo s ip).2.blockedIPs := by
  unfold geoStage
  split_ifs with h
  · exact checkGeolocation_mono geo s ip hx
  · exact hx

/-- `checkDDoS` never removes an address from the ban set. -/
theorem checkDDoS_mono {x : String} (s : WafState) (ip : String) (now : Nat)
    (hx : x ∈ s.blockedIPs) : x ∈ (checkDDoS s ip now).2.blockedIPs := by
  unfold checkDDoS
  cases hget : JsMap.mapGet s.requestCounts ip with
  | none => exact hx
  | some rd =>
    dsimp only
    split_ifs with h
    · exact blockIP_mono s ip "DDoS" [] hx
    · exact hx

/-- The DDoS stage never removes an address from the ban set. -/
theorem ddosStage_mono {x : String} (s : WafState) (ip : String) (now : Nat)
    (hx : x ∈ s.blockedIPs) : x ∈ (ddosStage s ip now).2.blockedIPs := by
  unfold ddosStage
  split_ifs with h
  · exact checkDDoS_mono s ip now hx
  · exact hx

/-- The GET branch never removes an address from the ban set. -/
theorem urlStage_mono {x : String} (s : WafState) (req : WafRequest) (now : Nat)
    (hx : x ∈ s.blockedIPs) : x ∈ (urlStage s req now).2.blockedIPs := by
  unfold urlStage
  split_ifs with h
  · exact recordBad_mono _ _ hx
  · exact ddosStage_mono _ _ _ hx

/-- The mutating branch never removes an address from the ban set. -/
theorem bodyStage_mono {x : String} (s : WafState) (req : WafRequest) (now : Nat)
    (hx : x ∈ s.blockedIPs) : x ∈ (bodyStage s req now).2.blockedIPs := by
  unfold bodyStage
  split_ifs with h1 h2 h3 h4
  · exact recordBad_mono _ _ hx
  · exact recordBad_mono _ _ hx
  · exact recordBad_mono _ _ hx
  · exact recordBad_mono _ _ hx
  · exact ddosStage_mono _ _ _ hx

/-- `trackRequest` changes only `requestCounts`. -/
theorem trackRequest_shape (s : WafState) (ip : String) (now : Nat) :
    ∃ rc, trackRequest s ip now = { s with requestCounts := rc } := by
  unfold trackRequest
  cases JsMap.mapGet s.requestCounts ip <;> exact ⟨_, rfl⟩

/-- `inspectRequest` never removes an address from the ban set: a ban
stays until some external actor removes it (no unban routine exists). -/
theorem inspect_mono {x : String} (geo : String → Option String) (s : WafState)
    (req : WafRequest) (now : Nat) (hx : x ∈ s.blockedIPs) :
    x ∈ (inspectRequest geo s req now).2.blockedIPs := by
  unfold inspectRequest
  split_ifs with h1 h2
  · exact hx
  · exact hx
  · obtain ⟨rc, hrc⟩ := trackRequest_shape s req.ip now
    rw [hrc]
    unfold postTrack
    split_ifs with h3 h4
    · exact geoStage_mono _ _ _ hx
    · exact urlStage_mono _ _ _ (geoStage_mono _ _ _ hx)
    · exact bodyStage_mono _ _ _ (geoStage_mono _ _ _ hx)

end Waf

namespace Waf

/-- `blockIP` on a loopback address is a complete no-op. -/
theorem blockIP_loopback (s : WafState) (ip r : String) (d : List (String × String))
    (hlo : ip = "127.0.0.1" ∨ ip = "::1") : blockIP s ip r d = s := by
  unfold blockIP
  rw [if_pos hlo]

/-- A loopback address outside the ban set stays outside it across any
`blockIP` call: the call either no-ops or appends a non-loopback address. -/
theorem blockIP_loopback_not_mem {lo : String} (s : WafState) (ip r : String)
    (d : List (String × String)) (hlo : lo = "127.0.0.1" ∨ lo = "::1")
    (hx : lo ∉ s.blockedIPs) : lo ∉ (blockIP s ip r d).blockedIPs := by
  unfold blockIP
  split_ifs with h1 h2
  · exact hx
  · exact hx
  · intro hc
    rcases List.mem_append.mp hc with h | h
    · exact hx h
    · exact h1 (List.mem_singleton.mp h ▸ hlo)

/-- `recordBadRequest` never adds a loopback address to the ban set. -/
theorem recordBad_loopback_not_mem {lo : String} (s : WafState) (ip : String)
    (hlo : lo = "127.0.0.1" ∨ lo = "::1") (hx : lo ∉ s.blockedIPs) :
    lo ∉ (recordBadRequest s ip).blockedIPs := by
  unfold recordBadRequest
  cases hget : JsMap.mapGet s.requestCounts ip with
  | none => exact hx
  | some rd =>
    dsimp only
    split_ifs with h
    · exact blockIP_loopback_not_mem _ _ _ _ hlo hx
    · exact hx

/-- `checkGeolocation` never adds a loopback address to the ban set. -/
theorem checkGeolocation_loopback_not_mem {lo : String} (geo : String → Option String)
    (s : WafState) (ip : String) (hlo : lo = "127.0.0.1" ∨ lo = "::1")
    (hx : lo ∉ s.blockedIPs) : lo ∉ (checkGeolocation geo s ip).2.blockedIPs := by
  unfold checkGeolocation
  split_ifs with h1
  · exact hx
  · cases hgeo : geo ip with
    | none => exact hx
    | some c =>
      dsimp only
      split_ifs with h2
      · exact recordBad_loopback_not_mem _ _ hlo hx
      · exact hx

/-- The geo stage never adds a loopback address to the ban set. -/
theorem geoStage_loopback_not_mem {lo : String} (geo : String → Option String)
    (s : WafState) (ip : String) (hlo : lo = "127.0.0.1" ∨ lo = "::1")
    (hx : lo ∉ s.blockedIPs) : lo ∉ (geoStage geo s ip).2.blockedIPs := by
  unfold geoStage
  split_ifs with h
  · exact checkGeolocation_loopback_not_mem geo s ip hlo hx
  · exact hx

/-- `checkDDoS` never adds a loopback address to the ban set. -/
theorem checkDDoS_loopback_not_mem {lo : String} (s : WafState) (ip : String) (now : Nat)
    (hlo : lo = "127.0.0.1" ∨ lo = "::1") (hx : lo ∉ s.blockedIPs) :
    lo ∉ (checkDDoS s ip now).2.blockedIPs := by
  unfold checkDDoS
  cases hget : JsMap.mapGet s.requestCounts ip with
  | none => exact hx
  | some rd =>
    dsimp only
    split_ifs with h
    · exact blockIP_loopback_not_mem s ip "DDoS" [] hlo hx
    · exact hx

/-- The DDoS stage never adds a loopback address to the ban set. -/
theorem ddosStage_loopback_not_mem {lo : String} (s : WafState) (ip : String) (now : Nat)
    (hlo : lo = "127.0.0.1" ∨ lo = "::1") (hx : lo ∉ s.blockedIPs) :
    lo ∉ (ddosStage s ip now).2.blockedIPs := by
  unfold ddosStage
  split_ifs with h
  · exact checkDDoS_loopback_not_mem s ip now hlo hx
  · exact hx

/-- The GET branch never adds a loopback address to the ban set. -/
theorem urlStage_loopback_not_mem {lo : String} (s : WafState) (req : WafRequest)
    (now : Nat) (hlo : lo = "127.0.0.1" ∨ lo = "::1") (hx : lo ∉ s.blockedIPs) :
    lo ∉ (urlStage s req now).2.blockedIPs := by
  unfold urlStage
  split_ifs with h
  · exact recordBad_loopback_not_mem _ _ hlo hx
  · exact ddosStage_loopback_not_mem _ _ _ hlo hx

/-- The mutating branch never adds a loopback address to the ban set. -/
theorem bodyStage_loopback_not_mem {lo : String} (s : WafState) (req : WafRequest)
    (now : Nat) (hlo : lo = "127.0.0.1" ∨ lo = "::1") (hx : lo ∉ s.blockedIPs) :
    lo ∉ (bodyStage s req now).2.blockedIPs := by
  unfold bodyStage
  split_ifs with h1 h2 h3 h4
  · exact recordBad_loopback_not_mem _ _ hlo hx
  · exact recordBad_loopback_not_mem _ _ hlo hx
  · exact recordBad_loopback_not_mem _ _ hlo hx
  · exact recordBad_loopback_not_mem _ _ hlo hx
  · exact ddosStage_loopback_not_mem _ _ _ hlo hx

/-- `inspectRequest` never adds a loopback address to the ban set. -/
theorem inspect_loopback_not_mem {lo : String} (geo : String → Option String)
    (s : WafState) (req : WafRequest) (now : Nat) (hlo : lo = "127.0.0.1" ∨ lo = "::1")
    (hx : lo ∉ s.blockedIPs) : lo ∉ (inspectRequest geo s req now).2.blockedIPs := by
  unfold inspectRequest
  split_ifs with h1 h2
  · exact hx
  · exact hx
  · obtain ⟨rc, hrc⟩ := trackRequest_shape s req.ip now
    rw [hrc]
    unfold postTrack
    split_ifs with h3 h4
    · exact geoStage_loopback_not_mem _ _ _ hlo hx
    · exact urlStage_loopback_not_mem _ _ _ hlo (geoStage_loopback_not_mem _ _ _ hlo hx)
    · exact bodyStage_loopback_not_mem _ _ _ hlo (geoStage_loopback_not_mem _ _ _ hlo hx)

/-- `inspectUrl` never reports the IP-ban reason. -/
theorem inspectUrl_reason (url : String) :
    (inspectUrl url).reason ≠ some BlockReason.ipBlocked := by
  unfold inspectUrl
  split_ifs <;> simp [noBlock]

/-- `checkGeolocation` never reports the IP-ban reason. -/
theorem checkGeolocation_reason (geo : String → Option String) (s : WafState)
    (ip : String) : (checkGeolocation geo s ip).1.reason ≠ some BlockReason.ipBlocked := by
  unfold checkGeolocation
  split_ifs with h1
  · simp [noBlock]
  · cases hgeo : geo ip with
    | none => simp [noBlock]
    | some c =>
      dsimp only
      split_ifs with h2 <;> simp [noBlock]

/-- `checkDDoS` never reports the IP-ban reason. -/
theorem checkDDoS_reason (s : WafState) (ip : String) (now : Nat) :
    (checkDDoS s ip now).1.reason ≠ some BlockReason.ipBlocked := by
  unfold checkDDoS
  cases hget : JsMap.mapGet s.requestCounts ip with
  | none => simp [noBlock]
  | some rd =>
    dsimp only
    split_ifs with h <;> simp [noBlock]

/-- The stages after the ban check never report the IP-ban reason. -/
theorem postTrack_reason (geo : String → Option String) (s : WafState) (req : WafRequest)
    (now : Nat) : (postTrack geo s req now).1.reason ≠ some BlockReason.ipBlocked := by
  unfold postTrack
  split_ifs with h1 h2
  · unfold geoStage
    split_ifs with h
    · exact checkGeolocation_reason geo s req.ip
    · simp [noBlock]
  · unfold urlStage
    split_ifs with h
    · exact inspectUrl_reason req.url
    · unfold ddosStage
      split_ifs with h5
      · exact checkDDoS_reason _ _ _
      · simp [noBlock]
  · unfold bodyStage
    split_ifs with h5 h6 h7 h8 <;> try simp
    unfold ddosStage
    split_ifs with h9
    · exact checkDDoS_reason _ _ _
    · simp [noBlock]

end Waf

open Waf in
/-- C10.  `blockIP` on the loopback addresses 127.0.0.1 and ::1 is a
complete no-op for every reason and detail argument (ban set and published
rate-limiter list unchanged); consequently, starting from any state not
banning the loopback address, no amount of traffic — DDoS bursts or
attack payload detections included — ever bans it, and a request from it
is never rejected with the IP-ban reason. -/
theorem C10_loopback_never_banned (lo : String)
    (hlo : lo = "127.0.0.1" ∨ lo = "::1") (s : Waf.WafState) (reason : String)
    (details : List (String × String)) (geo : String → Option String)
    (req : Waf.WafRequest) (now : Nat) :
    Waf.blockIP s lo reason details = s ∧
    (lo ∉ s.blockedIPs → lo ∉ (Waf.inspectRequest geo s req now).2.blockedIPs) ∧
    (req.ip = lo → lo ∉ s.blockedIPs →
      (Waf.inspectRequest geo s req now).1.reason ≠ some .ipBlocked) := by
  refine ⟨blockIP_loopback s lo reason details hlo, ?_, ?_⟩
  · exact fun hx => inspect_loopback_not_mem geo s req now hlo hx
  · intro hip hx
    unfold Waf.inspectRequest
    split_ifs with h1 h2
    · simp [Waf.noBlock]
    · exact absurd (hip ▸ h2) hx
    · exact postTrack_reason geo _ req now

open Waf in
/-- C10, witness: a concrete burst-state block attempt on 127.0.0.1 leaves
a fresh WAF state unchanged. -/
theorem C10_loopback_never_banned_witness :
    Waf.blockIP
      { isEnabled := true, ruleSqlInjection := true, ruleXss := true,
        ruleCommandInjection := true, rulePathTraversal := true, ruleDdos := true,
        ruleGeoblocking := true, requestCounts := [], blockedIPs := ["203.0.113.7"],
        allowedCountries := ["ID", "SG", "MY", "US"],
        rateLimiterBlockList := ["203.0.113.7"] } "127.0.0.1" "DDoS" [] =
      { isEnabled := true, ruleSqlInjection := true, ruleXss := true,
        ruleCommandInjection := true, rulePathTraversal := true, ruleDdos := true,
        ruleGeoblocking := true, requestCounts := [], blockedIPs := ["203.0.113.7"],
        allowedCountries := ["ID", "SG", "MY", "US"],
        rateLimiterBlockList := ["203.0.113.7"] } := by
  exact (C10_loopback_never_banned "127.0.0.1" (Or.inl rfl) _ "DDoS" []
    (fun _ => none) { ip := "127.0.0.1", method := "GET", url := "/", body := "" } 0).1

namespace Waf

/-- The entry `trackRequest` writes for the request's address. -/
def trackedData (s : WafState) (ip : String) (now : Nat) : ReqData :=
  match JsMap.mapGet s.requestCounts ip with
  | none => ⟨[now], 0, 1⟩
  | some rd => ⟨rd.timestamps ++ [now], rd.badRequests, rd.totalRequests + 1⟩

/-- `trackRequest` as a single map write. -/
theorem trackRequest_eq (s : WafState) (ip : String) (now : Nat) :
    trackRequest s ip now =
      { s with requestCounts :=
                 JsMap.mapSet s.requestCounts ip (trackedData s ip now) } := by
  unfold trackRequest trackedData
  cases JsMap.mapGet s.requestCounts ip <;> rfl

/-- For an enabled WAF, an unbanned address and a geo-unknown address, the
inspection is the tracked state pushed through the URL or body branch. -/
theorem inspect_unrolled (geo : String → Option String) (s : WafState)
    (req : WafRequest) (now : Nat) (hen : s.isEnabled = true)
    (hnb : req.ip ∉ s.blockedIPs) (hgeo : geo req.ip = none) :
    inspectRequest geo s req now =
      if req.method = "GET" then
        urlStage
          { s with requestCounts :=
                     JsMap.mapSet s.requestCounts req.ip (trackedData s req.ip now) }
          req now
      else
        bodyStage
          { s with requestCounts :=
                     JsMap.mapSet s.requestCounts req.ip (trackedData s req.ip now) }
          req now := by
  unfold inspectRequest
  rw [if_neg (by simp [hen]), if_neg hnb, trackRequest_eq]
  unfold postTrack
  rw [geoStage_none _ _ _ hgeo]
  rw [if_neg (by simp [noBlock])]

/-- The stringified mutating body `{"username":"' OR '1'='1"}` of the
claimed SQL-injection scenario. -/
def sqliBody : String := "\x7b\"username\":\"' OR '1'='1\"\x7d"

/-- The same body with the classic comment suffix, `' OR '1'='1--`, which
does match the signature set (the quote-then-dashes signature). -/
def sqliBodyVariant : String := "\x7b\"username\":\"' OR '1'='1--\"\x7d"

/-- The stringified body `{"comment":"<script>alert(1)</script>"}`. -/
def xssBody : String := "\x7b\"comment\":\"<script>alert(1)</script>\"\x7d"

/-- A clean JSON payload matching no signature. -/
def cleanBody : String := "\x7b\"name\":\"Budi\",\"age\":7\x7d"

/-- A clean route. -/
def cleanUrl : String := "/api/anak"

/-- A production-like WAF state: enabled, every rule active, no traffic
seen, nobody banned. -/
def wafStEx : WafState :=
  { isEnabled := true, ruleSqlInjection := true, ruleXss := true,
    ruleCommandInjection := true, rulePathTraversal := true, ruleDdos := true,
    ruleGeoblocking := true, requestCounts := [], blockedIPs := [],
    allowedCountries := ["ID", "SG", "MY", "US"], rateLimiterBlockList := [] }

/-- A geo-IP resolver that knows no address. -/
def geoNone : String → Option String := fun _ => none

end Waf

open Waf in
/-- C7, counterexample.  With the WAF enabled and every rule active, a
mutating request whose body contains `' OR '1'='1` passes entirely
unblocked: the payload has no `--`, no keyword pair and no second
semicolon, so it matches none of the eleven SQL-injection signatures (nor
any other category). -/
theorem C7_counterexample :
    (Waf.inspectRequest Waf.geoNone Waf.wafStEx
      { ip := "203.0.113.5", method := "POST", url := Waf.cleanUrl,
        body := Waf.sqliBody } 100000).1.blocked = false := by
  decide

open Waf in
/-- C7, amended.  With the WAF enabled, the SQL-injection and XSS rules
active, the address unbanned, fresh and geo-unknown: a mutating request
whose body carries `' OR '1'='1--` — a payload that does match the
signature set, unlike the bare `' OR '1'='1`, which matches no signature
and passes — is blocked and classified as SQL injection; a body carrying
`<script>alert(1)</script>` is blocked and classified as XSS; and a clean
JSON payload passes unblocked. -/
theorem C7_signature_blocking (geo : String → Option String) (s : Waf.WafState)
    (ip : String) (now : Nat) (hen : s.isEnabled = true)
    (hsql : s.ruleSqlInjection = true) (hxss : s.ruleXss = true)
    (hnb : ip ∉ s.blockedIPs) (hfresh : JsMap.mapGet s.requestCounts ip = none)
    (hgeo : geo ip = none) :
    (Waf.inspectRequest geo s
      { ip := ip, method := "POST", url := Waf.cleanUrl,
        body := Waf.sqliBodyVariant } now).1 =
      { blocked := true, reason := some .sqlInjection } ∧
    (Waf.inspectRequest geo s
      { ip := ip, method := "POST", url := Waf.cleanUrl, body := Waf.xssBody } now).1 =
      { blocked := true, reason := some .xss } ∧
    (Waf.inspectRequest geo s
      { ip := ip, method := "POST", url := Waf.cleanUrl, body := Waf.cleanBody }
      now).1.blocked = false ∧
    Waf.categoryCode .sqlInjection = some "SQL_INJECTION" ∧
    Waf.categoryCode .xss = some "XSS" := by
  have htd : trackedData s ip now = ⟨[now], 0, 1⟩ := by
    unfold trackedData
    rw [hfresh]
  refine ⟨?_, ?_, ?_, rfl, rfl⟩
  · rw [inspect_unrolled geo s _ now hen hnb hgeo]
    dsimp only
    rw [if_neg (by decide)]
    unfold bodyStage
    dsimp only
    rw [if_pos ⟨hsql, by decide⟩]
  · rw [inspect_unrolled geo s _ now hen hnb hgeo]
    dsimp only
    rw [if_neg (by decide)]
    unfold bodyStage
    dsimp only
    rw [if_neg (fun hc => absurd hc.2 (by decide)), if_pos ⟨hxss, by decide⟩]
  · rw [inspect_unrolled geo s _ now hen hnb hgeo]
    dsimp only
    rw [if_neg (by decide)]
    unfold bodyStage
    dsimp only
    rw [if_neg (fun hc => absurd hc.2 (by decide)),
      if_neg (fun hc => absurd hc.2 (by decide)),
      if_neg (fun hc => absurd hc.2 (by decide)),
      if_neg (fun hc => absurd hc.2 (by decide))]
    have h10 : ((trackedData s ip now).timestamps.filter
        (fun t => now - 1000 < t)).length ≤ 10 := by
      rw [htd]
      exact Nat.le_trans (List.length_filter_le _ _) (by simp)
    have h100 : ((trackedData s ip now).timestamps.filter
        (fun t => now - 60000 < t)).length ≤ 100 := by
      rw [htd]
      exact Nat.le_trans (List.length_filter_le _ _) (by simp)
    have hdd := checkDDoS_pass
      { s with requestCounts :=
                 JsMap.mapSet s.requestCounts ip (trackedData s ip now) }
      ip now (trackedData s ip now) (JsMap.mapGet_mapSet_self _ _ _) h10 h100
    rw [ddosStage_pass _ _ _ hdd]
    rfl

open Waf in
/-- C7, witness: the SQL-classified rejection at a concrete address and
state. -/
theorem C7_signature_blocking_witness :
    (Waf.inspectRequest Waf.geoNone Waf.wafStEx
      { ip := "203.0.113.5", method := "POST", url := Waf.cleanUrl,
        body := Waf.sqliBodyVariant } 100000).1 =
      { blocked := true, reason := some .sqlInjection } := by
  exact (C7_signature_blocking Waf.geoNone Waf.wafStEx "203.0.113.5" 100000 rfl rfl rfl
    (by decide) rfl rfl).1

namespace Waf

/-- A GET request from the loopback address. -/
def loReq : WafRequest := { ip := "127.0.0.1", method := "GET", url := cleanUrl, body := "" }

/-- Ten request instants inside one second. -/
def burstTimes : List Nat :=
  [100000, 100001, 100002, 100003, 100004, 100005, 100006, 100007, 100008, 100009]

/-- The WAF state after the loopback address issued ten requests within
one second. -/
def stAfterBurst : WafState :=
  burstTimes.foldl (fun s t => (inspectRequest geoNone s loReq t).2) wafStEx

end Waf

open Waf in
/-- C8, counterexample.  The loopback address exceeds the per-second
threshold at its eleventh request inside one second: the request is
rejected as DDoS, but `blockIP` skips loopback, so the blocked set stays
empty — no auto-ban happens — and a later request from the same address
passes instead of being rejected as banned. -/
theorem C8_counterexample :
    (Waf.inspectRequest Waf.geoNone Waf.stAfterBurst Waf.loReq 100010).1 =
      { blocked := true, reason := some .ddos } ∧
    (Waf.inspectRequest Waf.geoNone Waf.stAfterBurst Waf.loReq 100010).2.blockedIPs = [] ∧
    (Waf.inspectRequest Waf.geoNone
      (Waf.inspectRequest Waf.geoNone Waf.stAfterBurst Waf.loReq 100010).2
      Waf.loReq 200000).1.blocked = false := by
  refine ⟨?_, ?_, ?_⟩
  · decide
  · decide
  · decide

open Waf in
/-- C8, amended.  For every non-loopback address: when the WAF is enabled,
the address is not yet banned, the DDoS rule is active, geo lookup is
unknown, and — counting the request being inspected — more than ten of its
requests fall within the last second, `inspectRequest` rejects the request
as DDoS, adds the address to the blocked set, publishes the updated set to
the rate limiter, and every subsequent `inspectRequest` from that address
(under any enabled state that still bans it) is rejected with the
ban-specific reason; no `inspectRequest` ever removes a ban, and the
source has no unban routine, so only an explicit external unban lifts it.
For loopback addresses the auto-ban is skipped (see the counterexample). -/
theorem C8_ddos_autoban (geo : String → Option String) (s : Waf.WafState) (ip : String)
    (now : Nat) (rd : Waf.ReqData) (hen : s.isEnabled = true) (hnb : ip ∉ s.blockedIPs)
    (hddos : s.ruleDdos = true) (hlo1 : ip ≠ "127.0.0.1") (hlo2 : ip ≠ "::1")
    (hgeo : geo ip = none) (hcount : JsMap.mapGet s.requestCounts ip = some rd)
    (hburst : 10 <
      ((rd.timestamps ++ [now]).filter (fun t => now - 1000 < t)).length) :
    (Waf.inspectRequest geo s ⟨ip, "GET", Waf.cleanUrl, ""⟩ now).1 =
      { blocked := true, reason := some .ddos } ∧
    ip ∈ (Waf.inspectRequest geo s ⟨ip, "GET", Waf.cleanUrl, ""⟩ now).2.blockedIPs ∧
    (Waf.inspectRequest geo s ⟨ip, "GET", Waf.cleanUrl, ""⟩ now).2.rateLimiterBlockList =
      (Waf.inspectRequest geo s ⟨ip, "GET", Waf.cleanUrl, ""⟩ now).2.blockedIPs ∧
    (∀ (s2 : Waf.WafState) (req2 : Waf.WafRequest) (now2 : Nat), s2.isEnabled = true →
      req2.ip = ip → ip ∈ s2.blockedIPs →
      Waf.inspectRequest geo s2 req2 now2 =
        ({ blocked := true, reason := some .ipBlocked }, s2)) ∧
    (∀ (geo2 : String → Option String) (s2 : Waf.WafState) (req2 : Waf.WafRequest)
      (now2 : Nat), ip ∈ s2.blockedIPs →
      ip ∈ (Waf.inspectRequest geo2 s2 req2 now2).2.blockedIPs) := by
  have htd : trackedData s ip now =
      ⟨rd.timestamps ++ [now], rd.badRequests, rd.totalRequests + 1⟩ := by
    unfold trackedData
    rw [hcount]
  have hrun : Waf.inspectRequest geo s ⟨ip, "GET", Waf.cleanUrl, ""⟩ now =
      ({ blocked := true, reason := some .ddos },
        Waf.blockIP
          { s with requestCounts :=
                     JsMap.mapSet s.requestCounts ip (trackedData s ip now) }
          ip "DDoS" []) := by
    rw [inspect_unrolled geo s _ now hen hnb hgeo]
    dsimp only
    rw [if_pos rfl]
    unfold urlStage
    dsimp only
    rw [if_neg (by decide)]
    unfold ddosStage
    rw [if_pos hddos]
    unfold checkDDoS
    rw [JsMap.mapGet_mapSet_self]
    dsimp only
    rw [htd]
    dsimp only
    rw [if_pos (Or.inl hburst)]
  refine ⟨by rw [hrun], ?_, ?_, ?_, ?_⟩
  · rw [hrun]
    unfold blockIP
    rw [if_neg (not_or.mpr ⟨hlo1, hlo2⟩)]
    split_ifs with h
    · exact h
    · exact List.mem_append_right _ (List.mem_singleton.mpr rfl)
  · rw [hrun]
    unfold blockIP
    rw [if_neg (not_or.mpr ⟨hlo1, hlo2⟩)]
    split_ifs with h
    · rfl
    · rfl
  · intro s2 req2 now2 hen2 hip2 hmem2
    exact inspect_banned geo s2 req2 now2 hen2 (hip2 ▸ hmem2)
  · intro geo2 s2 req2 now2 hmem2
    exact inspect_mono geo2 s2 req2 now2 hmem2

namespace Waf

/-- A state in which a public address has already issued ten requests
within the last second. -/
def burstState : WafState :=
  { wafStEx with requestCounts := [("203.0.113.9", ⟨burstTimes, 0, 10⟩)] }

end Waf

open Waf in
/-- C8, witness: the eleventh in-second request from a concrete public
address is rejected as DDoS by the amended theorem. -/
theorem C8_ddos_autoban_witness :
    (Waf.inspectRequest Waf.geoNone Waf.burstState
      ⟨"203.0.113.9", "GET", Waf.cleanUrl, ""⟩ 100010).1 =
      { blocked := true, reason := some .ddos } := by
  exact (C8_ddos_autoban Waf.geoNone Waf.burstState "203.0.113.9" 100010
    ⟨Waf.burstTimes, 0, 10⟩ rfl (by decide) rfl (by decide) (by decide) rfl
    (by decide) (by decide)).1
